import Mathlib

/-!
Verification of the OLA rides dashboard core (app.py): the dynamic
filter/query builder, the SQL-runner gate, the predefined query catalog,
the distinct-value helper, the CSV export round trip and the base-table
selection, shallowly embedded in Lean from the source.
-/

set_option linter.unusedVariables false

/-- String join with a separator, modelling Python `sep.join(list)`
(used by the WHERE builder as `" AND ".join(where)` and `" OR ".join(sub)`,
app.py lines 171 and 176). -/
def strJoin (sep : String) : List String → String
  | [] => ""
  | [s] => s
  | s :: rest => s ++ sep ++ strJoin sep rest

/-- Python `str.strip()` whitespace class (ASCII part). -/
def pyIsSpace (c : Char) : Bool :=
  c = ' ' ∨ c = '\t' ∨ c = '\n' ∨ c = '\r' ∨ c = '\x0b' ∨ c = '\x0c'

/-- Drop leading whitespace characters. -/
def stripLeft : List Char → List Char
  | [] => []
  | c :: rest => if pyIsSpace c then stripLeft rest else c :: rest

/-- Python `str.strip()`: drop leading and trailing whitespace. -/
def pyStrip (l : List Char) : List Char :=
  (stripLeft (stripLeft l.reverse).reverse)

/-- Python `str.lower()` (ASCII case folding, which is all the app compares). -/
def pyLower (l : List Char) : List Char :=
  l.map Char.toLower

/-- Python `str.startswith(pre)` on character lists. -/
def listStartsWith : List Char → List Char → Bool
  | _, [] => true
  | [], _ :: _ => false
  | c :: cs, d :: ds => c = d && listStartsWith cs ds

/-- Python `s.lower()` at the `String` level (used for the search patterns,
app.py lines 173-174). -/
def lowerStr (s : String) : String :=
  String.mk (pyLower s.data)

/-- Column-presence capability flags derived from the sample read,
app.py lines 92-98. -/
structure Schema where
  has_date    : Bool
  has_status  : Bool
  has_vehicle : Bool
  has_payment : Bool
  has_cust_id : Bool
  has_pickup  : Bool
  has_drop    : Bool
deriving DecidableEq, Repr

/-- The user-chosen filter state: the three categorical select boxes
(app.py lines 134-142, value "All" = no filter), the date-range widget
(app.py lines 144-150: `none` when the table has no date column, otherwise
the list of string-formatted endpoints the widget returned), and the
free-text search box (app.py line 152). -/
structure Selection where
  status    : String
  vehicle   : String
  payment   : String
  dateRange : Option (List String)
  search    : String
deriving DecidableEq, Repr

/-- The `sub` list of search predicates, app.py lines 166-169. -/
def searchSub (sch : Schema) : List String :=
  (if sch.has_cust_id then ["CAST(customer_id AS TEXT) LIKE ?"] else []) ++
  (if sch.has_pickup then ["LOWER(pickup_location) LIKE ?"] else []) ++
  (if sch.has_drop then ["LOWER(drop_location) LIKE ?"] else [])

/-- The search parameters appended for a non-empty search, app.py lines
172-174: raw pattern for the customer id, lower-cased pattern for the two
location columns, each wrapped in `%` wildcards. -/
def searchParams (sch : Schema) (search : String) : List String :=
  (if sch.has_cust_id then ["%" ++ search ++ "%"] else []) ++
  (if sch.has_pickup then ["%" ++ lowerStr search ++ "%"] else []) ++
  (if sch.has_drop then ["%" ++ lowerStr search ++ "%"] else [])

/-- The parenthesised OR-disjunction added for the search term,
app.py line 171. -/
def searchClause (sch : Schema) : String :=
  "(" ++ strJoin " OR " (searchSub sch) ++ ")"

/-- Whether the date-range widget supplied exactly two endpoints
(`isinstance(date_range, tuple) and len(date_range) == 2`, app.py line 163). -/
def dateActive (sel : Selection) : Bool :=
  match sel.dateRange with
  | some dr => decide (dr.length = 2)
  | none => false

/-- The WHERE builder, app.py lines 156-175: sequentially appends, in
source order, the three categorical equality predicates, the date BETWEEN
predicate and the search disjunction to `where`, with the matching bound
values appended to `params`. -/
def build_where (sch : Schema) (sel : Selection) : List String × List String :=
  let statusW : List String :=
    if sch.has_status ∧ sel.status ≠ "All" then ["booking_status = ?"] else []
  let statusP : List String :=
    if sch.has_status ∧ sel.status ≠ "All" then [sel.status] else []
  let vehicleW : List String :=
    if sch.has_vehicle ∧ sel.vehicle ≠ "All" then ["vehicle_type = ?"] else []
  let vehicleP : List String :=
    if sch.has_vehicle ∧ sel.vehicle ≠ "All" then [sel.vehicle] else []
  let paymentW : List String :=
    if sch.has_payment ∧ sel.payment ≠ "All" then ["payment_method = ?"] else []
  let paymentP : List String :=
    if sch.has_payment ∧ sel.payment ≠ "All" then [sel.payment] else []
  let dateW : List String :=
    match sel.dateRange with
    | some dr => if sch.has_date ∧ dr.length = 2 then ["date BETWEEN ? AND ?"] else []
    | none => []
  let dateP : List String :=
    match sel.dateRange with
    | some dr => if sch.has_date ∧ dr.length = 2 then dr else []
    | none => []
  let searchW : List String :=
    if sel.search ≠ "" ∧ searchSub sch ≠ [] then [searchClause sch] else []
  let searchP : List String :=
    if sel.search ≠ "" ∧ searchSub sch ≠ [] then searchParams sch sel.search else []
  (statusW ++ vehicleW ++ paymentW ++ dateW ++ searchW,
   statusP ++ vehicleP ++ paymentP ++ dateP ++ searchP)

/-- Source `where_sql`, app.py line 176: `("WHERE " + " AND ".join(where)) if where else ""`. -/
def where_sql (w : List String) : String :=
  if w ≠ [] then "WHERE " ++ strJoin " AND " w else ""

/-- Source `base_sql`, app.py line 177: `f"SELECT * FROM {table} {where_sql}"`. -/
def base_sql (table : String) (w : List String) : String :=
  "SELECT * FROM " ++ table ++ " " ++ where_sql w

/-- Number of `?` placeholders in a statement text. -/
def countQ (s : String) : Nat :=
  s.data.count '?'

/-- Outcome of pressing "Run SQL": either the statement is handed to the
store, or it is rejected with the inline error and the store is never
touched (app.py lines 251-266). -/
inductive RunOutcome where
  | executed (sql : String)
  | rejected (msg : String)
deriving DecidableEq, Repr

/-- The guard condition `sql_text.strip().lower().startswith("select")`,
app.py line 253. -/
def selectGuard (sql_text : String) : Bool :=
  listStartsWith (pyLower (pyStrip sql_text.data)) "select".data

/-- The Run-SQL gate, app.py lines 253-256:
`if not sql_text.strip().lower().startswith("select"): st.error(...) else: run`. -/
def runSqlGate (sql_text : String) : RunOutcome :=
  if selectGuard sql_text then
    RunOutcome.executed sql_text
  else
    RunOutcome.rejected "Only SELECT statements are allowed in the app."

/-- Lexicographic comparison of character lists (code-point order, which for
UTF-8 text coincides with SQLite's BINARY byte order). -/
def charListLe : List Char → List Char → Bool
  | [], _ => true
  | _ :: _, [] => false
  | a :: as, b :: bs => if a = b then charListLe as bs else decide (a < b)

/-- Ascending lexical order on strings (code-point lexicographic). -/
def lexLe (a b : String) : Prop :=
  charListLe a.data b.data = true

instance : DecidableRel lexLe :=
  fun a b => inferInstanceAs (Decidable (charListLe a.data b.data = true))

/-- A SQLite storage value as seen by `distinct_values` (app.py lines 42-56):
`NULL`, an INTEGER, or a TEXT value.  (REAL and BLOB do not occur in this
data set and floating point is out of scope.) -/
inductive SqlVal where
  | null
  | intV (n : Int)
  | textV (s : String)
deriving DecidableEq, Repr

/-- SQLite `ORDER BY` comparison on storage values: `NULL` sorts first, all
INTEGER values sort before all TEXT values, INTEGER compares numerically and
TEXT compares lexically (BINARY collation). -/
def sqlLe : SqlVal → SqlVal → Bool
  | .null, _ => true
  | _, .null => false
  | .intV a, .intV b => decide (a ≤ b)
  | .intV _, .textV _ => true
  | .textV _, .intV _ => false
  | .textV a, .textV b => charListLe a.data b.data

/-- The relation `sqlLe` as a propositional relation, for the sorting lemmas. -/
def sqlLeProp (a b : SqlVal) : Prop := sqlLe a b = true

instance : DecidableRel sqlLeProp :=
  fun a b => inferInstanceAs (Decidable (sqlLe a b = true))

instance : IsTotal SqlVal sqlLeProp where
  total a b := by
    have key : ∀ (x y : List Char), charListLe x y = true ∨ charListLe y x = true := by
      intro x
      induction x with
      | nil => intro y; left; rfl
      | cons a as ih =>
        intro y
        cases y with
        | nil => right; rfl
        | cons b bs =>
          by_cases hab : a = b
          · subst hab
            rcases ih bs with h | h
            · left; simpa [charListLe] using h
            · right; simpa [charListLe] using h
          · rcases lt_or_gt_of_ne hab with h | h
            · left; simp [charListLe, hab, h]
            · right
              simp only [charListLe, if_neg (Ne.symm hab), decide_eq_true_eq]
              exact h
    cases a <;> cases b <;>
      simp [sqlLeProp, sqlLe] <;>
      first
        | exact le_total _ _
        | exact key _ _

instance : IsTrans SqlVal sqlLeProp where
  trans a b c hab hbc := by
    have key : ∀ (x y z : List Char), charListLe x y = true → charListLe y z = true →
        charListLe x z = true := by
      intro x
      induction x with
      | nil => intro y z _ _; rfl
      | cons a as ih =>
        intro y z hxy hyz
        cases y with
        | nil => simp [charListLe] at hxy
        | cons b bs =>
          cases z with
          | nil => simp [charListLe] at hyz
          | cons c cs =>
            by_cases hab : a = b <;> by_cases hbc2 : b = c
            · subst hab; subst hbc2
              simp only [charListLe, if_pos rfl] at hxy hyz ⊢
              exact ih bs cs hxy hyz
            · subst hab
              simp only [charListLe, if_pos rfl, if_neg hbc2, decide_eq_true_eq] at hyz ⊢
              simp [hbc2, hyz]
            · subst hbc2
              simp only [charListLe, if_pos rfl, if_neg hab, decide_eq_true_eq] at hxy ⊢
              simp [hab, hxy]
            · simp only [charListLe, if_neg hab, if_neg hbc2, decide_eq_true_eq] at hxy hyz
              have hac : a < c := lt_trans hxy hyz
              simp [charListLe, ne_of_lt hac, hac]
    cases a <;> cases b <;> cases c <;>
      simp only [sqlLeProp, sqlLe, decide_eq_true_eq] at * <;>
      first
        | trivial
        | exact le_trans hab hbc
        | exact key _ _ _ hab hbc

/-- pandas `.astype(str)` on one SQLite value (`NULL` never reaches this
point: the query filters `IS NOT NULL` and `.dropna()` runs before it). -/
def valToText : SqlVal → String
  | .null => ""
  | .intV n => toString n
  | .textV s => s

/-- Shallow embedding of `distinct_values` (app.py lines 42-56): the engine
evaluates `SELECT DISTINCT col AS v FROM t WHERE col IS NOT NULL ORDER BY 1`
(filter the nulls out, deduplicate, sort by SQLite value order), then pandas
applies `.dropna().astype(str).tolist()` (text coercion after the sort). -/
def distinct_values (col : List SqlVal) : List String :=
  (List.insertionSort sqlLeProp ((col.filter (· != SqlVal.null)).dedup)).map valToText

/-- The predefined query catalog, app.py lines 194-241: each of the ten
labels resolves to `SELECT * FROM <view>` when the expected view name is in
the store's view list `views`, else to the hard-coded inline fallback. -/
def predefined (views : List String) : List (String × String) :=
  [ ("Successful bookings",
      if views.contains "successful_bookings"
      then "SELECT * FROM " ++ "successful_bookings"
      else "SELECT * FROM bookings WHERE booking_status = \x27Success\x27"),
    ("Avg distance by vehicle",
      if views.contains "avg_vehicle_types"
      then "SELECT * FROM " ++ "avg_vehicle_types"
      else "SELECT vehicle_type, AVG(ride_distance) AS avg_distance FROM bookings GROUP BY vehicle_type"),
    ("Cancelled by customers",
      if views.contains "count_cancelled_ride_by_customers"
      then "SELECT * FROM " ++ "count_cancelled_ride_by_customers"
      else "SELECT COUNT(*) AS total_cancelled_by_customers FROM bookings WHERE booking_status=\x27Canceled_Rides_by_Customer\x27"),
    ("Top 5 customers by rides",
      if views.contains "Top_5_customers"
      then "SELECT * FROM " ++ "Top_5_customers"
      else "SELECT customer_id, COUNT(booking_id) AS total_rides FROM bookings GROUP BY customer_id ORDER BY total_rides DESC LIMIT 5"),
    ("Driver cancels (personal/car)",
      if views.contains "cancelled_by_drivers"
      then "SELECT * FROM " ++ "cancelled_by_drivers"
      else "SELECT COUNT(*) AS driver_cancel_personal_car FROM bookings WHERE Canceled_Rides_by_Driver=\x27Personal & Car releated issue\x27"),
    ("Min/Max driver rating (Prime Sedan)",
      if views.contains "min_max_driver_ratings"
      then "SELECT * FROM " ++ "min_max_driver_ratings"
      else "SELECT MAX(driver_ratings) AS max_rating, MIN(driver_ratings) AS min_rating FROM bookings WHERE vehicle_type=\x27Prime Sedan\x27"),
    ("UPI payments",
      if views.contains "Pay_UPI"
      then "SELECT * FROM " ++ "Pay_UPI"
      else "SELECT * FROM bookings WHERE payment_method=\x27UPI\x27"),
    ("Avg customer rating per vehicle",
      if views.contains "Avg_Customer_Rating"
      then "SELECT * FROM " ++ "Avg_Customer_Rating"
      else "SELECT vehicle_type, AVG(customer_rating) AS Avg_Cust_Rating FROM bookings GROUP BY vehicle_type"),
    ("Total booking value (successful)",
      if views.contains "Total_values"
      then "SELECT * FROM " ++ "Total_values"
      else "SELECT SUM(booking_value) AS total_success_value FROM bookings WHERE booking_status=\x27Success\x27"),
    ("Incomplete rides with reason",
      if views.contains "incomplete_rides"
      then "SELECT * FROM " ++ "incomplete_rides"
      else "SELECT booking_id, Incomplete_Rides_Reason FROM bookings WHERE Incomplete_Rides=\x27Yes\x27") ]

/-- Dictionary access `predefined[chosen]`, app.py line 247. -/
def lookupSql (catalog : List (String × String)) (label : String) : Option String :=
  (catalog.find? (fun e => e.1 == label)).map Prod.snd

/-- app.py line 84:
`table = "bookings" if "bookings" in tables else (tables[0] if tables else None)`. -/
def chooseTable (tables : List String) : Option String :=
  if tables.contains "bookings" then some "bookings" else tables.head?

/-- app.py lines 84-87 combined: the table the session actually proceeds
with; `none` means the session halts with the "No tables found" error.
Python `if not table:` is true both for `None` and for the empty string. -/
def activeTable (tables : List String) : Option String :=
  match chooseTable tables with
  | none => none
  | some t => if t = "" then none else some t

/-- A result table as displayed by the app: named columns plus rows of
cell values already rendered as text (pandas renders every cell on export). -/
structure DataFrame where
  cols : List String
  rows : List (List String)
deriving DecidableEq, Repr

/-- Whether a CSV field must be quoted (pandas QUOTE_MINIMAL: the field
contains the separator, the quote character, or a line-break character). -/
def needsQuote (f : List Char) : Bool :=
  f.any (fun c => c = ',' ∨ c = '"' ∨ c = '\n' ∨ c = '\r')

/-- Double every quote character (CSV escaping inside a quoted field). -/
def escapeQuotes : List Char → List Char
  | [] => []
  | c :: rest =>
    if c = '"' then '"' :: '"' :: escapeQuotes rest
    else c :: escapeQuotes rest

/-- Render one CSV field, quoting it only when needed (QUOTE_MINIMAL). -/
def renderField (f : List Char) : List Char :=
  if needsQuote f then '"' :: (escapeQuotes f ++ ['"']) else f

/-- Render one CSV record: fields joined with commas. -/
def renderRow : List (List Char) → List Char
  | [] => []
  | [f] => renderField f
  | f :: fs => renderField f ++ ',' :: renderRow fs

/-- Render a whole CSV document: every record (header included) is
terminated by a newline, as pandas `to_csv` emits it. -/
def renderCsv (recs : List (List (List Char))) : List Char :=
  (recs.map (fun r => renderRow r ++ ['\n'])).flatten

/-- Parse the body of a quoted CSV field (the opening quote has been
consumed): a doubled quote is a literal quote, a single quote closes. -/
def parseQuoted : List Char → List Char × List Char
  | [] => ([], [])
  | c :: rest =>
    if c = '"' then
      match rest with
      | [] => ([], [])
      | c2 :: rest2 =>
        if c2 = '"' then
          let p := parseQuoted rest2
          ('"' :: p.1, p.2)
        else ([], rest)
    else
      let p := parseQuoted rest
      (c :: p.1, p.2)

/-- Parse an unquoted CSV field: read up to a separator or record end. -/
def parseUnquoted : List Char → List Char × List Char
  | [] => ([], [])
  | c :: rest =>
    if c = ',' ∨ c = '\n' then ([], c :: rest)
    else
      let p := parseUnquoted rest
      (c :: p.1, p.2)

/-- Parse one CSV field, quoted or not. -/
def parseField : List Char → List Char × List Char
  | [] => ([], [])
  | c :: rest => if c = '"' then parseQuoted rest else parseUnquoted (c :: rest)

/-- Parse one CSV record (fuelled recursion over the field count). -/
def parseRowF : Nat → List Char → List (List Char) × List Char
  | 0, l => ([], l)
  | fuel + 1, l =>
    let p := parseField l
    match p.2 with
    | c :: rest =>
      if c = ',' then
        let q := parseRowF fuel rest
        (p.1 :: q.1, q.2)
      else if c = '\n' then (p.1 :: [], rest)
      else (p.1 :: [], c :: rest)
    | [] => (p.1 :: [], [])

/-- Parse one CSV record. -/
def parseRow (l : List Char) : List (List Char) × List Char :=
  parseRowF (l.length + 1) l

/-- Parse a CSV document into records (fuelled recursion over the record
count). -/
def parseCsvF : Nat → List Char → List (List (List Char))
  | 0, _ => []
  | fuel + 1, l =>
    if l = [] then []
    else
      let p := parseRow l
      p.1 :: parseCsvF fuel p.2

/-- Parse a CSV document into records. -/
def parseCsv (l : List Char) : List (List (List Char)) :=
  parseCsvF l.length l

/-- Source `df.to_csv(index=False)`, app.py line 59: header row first, then the
data rows, comma separated, minimally quoted, no index column. -/
def toCsvString (df : DataFrame) : String :=
  String.mk (renderCsv ((df.cols.map String.data) :: df.rows.map (fun r => r.map String.data)))

/-- Source `to_csv_bytes`, app.py lines 58-59: the CSV text as the character
stream that `.encode("utf-8")` turns byte-for-byte into the download
payload (UTF-8 encoding itself is injective and lossless). -/
def to_csv_bytes (df : DataFrame) : List Char :=
  (toCsvString df).data

/-- Re-parse an exported CSV document back into rows of string fields. -/
def parseCsvString (s : String) : List (List String) :=
  (parseCsv s.data).map (fun r => r.map (fun f => String.mk f))

/-- Position at which a CSV field may legally end: end of input, a field
separator, or a record terminator. -/
def atSep : List Char → Prop
  | [] => True
  | c :: _ => c = ',' ∨ c = '\n'

/-! ### Helper lemmas -/

theorem build_where_fst (sch : Schema) (sel : Selection) :
    (build_where sch sel).1 =
      (if sch.has_status ∧ sel.status ≠ "All" then ["booking_status = ?"] else []) ++
      (if sch.has_vehicle ∧ sel.vehicle ≠ "All" then ["vehicle_type = ?"] else []) ++
      (if sch.has_payment ∧ sel.payment ≠ "All" then ["payment_method = ?"] else []) ++
      (match sel.dateRange with
        | some dr => if sch.has_date ∧ dr.length = 2 then ["date BETWEEN ? AND ?"] else []
        | none => []) ++
      (if sel.search ≠ "" ∧ searchSub sch ≠ [] then [searchClause sch] else []) := rfl

theorem build_where_snd (sch : Schema) (sel : Selection) :
    (build_where sch sel).2 =
      (if sch.has_status ∧ sel.status ≠ "All" then [sel.status] else []) ++
      (if sch.has_vehicle ∧ sel.vehicle ≠ "All" then [sel.vehicle] else []) ++
      (if sch.has_payment ∧ sel.payment ≠ "All" then [sel.payment] else []) ++
      (match sel.dateRange with
        | some dr => if sch.has_date ∧ dr.length = 2 then dr else []
        | none => []) ++
      (if sel.search ≠ "" ∧ searchSub sch ≠ [] then searchParams sch sel.search else []) := rfl

theorem searchClause_head (sch : Schema) :
    (searchClause sch).data.head? = some '(' := by
  show (("(" ++ strJoin " OR " (searchSub sch) ++ ")").data).head? = some '('
  rw [String.data_append, String.data_append]
  rfl

theorem searchClause_ne (sch : Schema) (t : String) (h : t.data.head? ≠ some '(') :
    searchClause sch ≠ t := by
  intro e
  exact h (e ▸ searchClause_head sch)

theorem charListLe_refl (l : List Char) : charListLe l l = true := by
  induction l with
  | nil => rfl
  | cons a as ih => simpa [charListLe] using ih

theorem lexLe_refl (s : String) : lexLe s s := charListLe_refl s.data

/-! ### Claim C2: the Run-SQL guard -/

/-- Claim C2: the executor runs a submitted query against the store if and
only if the text, stripped of leading/trailing whitespace and lower-cased,
starts with the literal "select"; any other string is rejected with the
user-facing error and no store access happens.  In particular
"DROP TABLE bookings" is rejected while "  select * ..." (leading
whitespace, any letter case) is accepted. -/
theorem run_sql_guard_characterisation (s : String) :
    (runSqlGate s = RunOutcome.executed s ↔ selectGuard s = true) ∧
    (runSqlGate s = RunOutcome.rejected "Only SELECT statements are allowed in the app." ↔
      selectGuard s = false) ∧
    runSqlGate "DROP TABLE bookings" =
      RunOutcome.rejected "Only SELECT statements are allowed in the app." ∧
    runSqlGate "  select * FROM bookings LIMIT 10" =
      RunOutcome.executed "  select * FROM bookings LIMIT 10" ∧
    runSqlGate "  SeLECT 1" = RunOutcome.executed "  SeLECT 1" ∧
    runSqlGate "drop table bookings" =
      RunOutcome.rejected "Only SELECT statements are allowed in the app." := by
  refine ⟨?_, ?_, by decide, by decide, by decide, by decide⟩ <;>
    by_cases h : selectGuard s <;> simp [runSqlGate, h]

/-! ### Claim C10: base-table selection -/

/-- Claim C10 (counterexample): a store whose only table is named the empty
string has tables, and the fallback choice is that first table, yet the
session halts ("No tables found") because Python `if not table:` also
treats the empty string as missing — the builder never operates on it. -/
theorem table_selection_counterexample :
    ([""] : List String) ≠ [] ∧ chooseTable [""] = some "" ∧ activeTable [""] = none := by
  refine ⟨by decide, by decide, by decide⟩

/-- Claim C10 (amended): with the store's table list sorted ascending (as
`list_tables` returns it), the session proceeds with table "bookings"
whenever that name is present; otherwise with the first (alphabetically
least) table name provided it is not the empty string; it halts with the
fatal error when there are no tables, and also when the fallback first
name is the empty string (Python falsiness). -/
theorem table_selection_amended (tables : List String)
    (hsorted : List.Pairwise lexLe tables) :
    (tables = [] → activeTable tables = none) ∧
    ("bookings" ∈ tables → activeTable tables = some "bookings") ∧
    ("bookings" ∉ tables → ∀ t ts, tables = t :: ts → t ≠ "" →
      activeTable tables = some t ∧ ∀ u ∈ tables, lexLe t u) ∧
    ("bookings" ∉ tables → ∀ ts, tables = "" :: ts → activeTable tables = none) := by
  refine ⟨?_, ?_, ?_, ?_⟩
  · rintro rfl; rfl
  · intro hmem
    simp [activeTable, chooseTable, hmem]
  · rintro hnmem t ts rfl hne
    have h1 : ¬("bookings" = t ∨ "bookings" ∈ ts) := by
      simpa [List.mem_cons] using hnmem
    refine ⟨by simp [activeTable, chooseTable, h1, hne], ?_⟩
    intro u hu
    rcases List.mem_cons.mp hu with rfl | hu
    · exact lexLe_refl u
    · exact (List.pairwise_cons.mp hsorted).1 u hu
  · rintro hnmem ts rfl
    have h1 : "bookings" ∉ ts := fun h => hnmem (List.mem_cons.mpr (Or.inr h))
    simp [activeTable, chooseTable, h1]

/-- Witness for the amended C10 theorem at a concrete store. -/
theorem table_selection_amended_witness :
    activeTable ["alpha", "beta"] = some "alpha" ∧
      ∀ u ∈ ["alpha", "beta"], lexLe "alpha" u :=
  (table_selection_amended ["alpha", "beta"] (by decide)).2.2.1
    (by decide) "alpha" ["beta"] rfl (by decide)

/-! ### Claim C6: distinct values -/

/-- Claim C6 (counterexample): on an INTEGER column holding 10 and 2 the
helper returns ["2", "10"]: the engine sorts the native values before
pandas coerces them to text, so the output is not in ascending lexical
order ("10" precedes "2" lexically). -/
theorem distinct_values_counterexample :
    distinct_values [SqlVal.intV 10, SqlVal.intV 2] = ["2", "10"] ∧
      ¬ lexLe "2" "10" := by
  refine ⟨by decide, by decide⟩

/-- Claim C6 (amended): `distinct_values` returns exactly the column's
non-null values coerced to text, deduplicated at the value level, sorted
ascending in SQLite value order (text coercion happens after the sort);
when every non-null value in the column is TEXT the output is in ascending
lexical order, as the original claim states. -/
theorem distinct_values_amended (col : List SqlVal) :
    (∀ s, s ∈ distinct_values col ↔
      ∃ v, v ∈ col ∧ v ≠ SqlVal.null ∧ valToText v = s) ∧
    (∃ vals : List SqlVal,
      distinct_values col = vals.map valToText ∧
      vals.Nodup ∧
      List.Pairwise sqlLeProp vals ∧
      (∀ v ∈ vals, v ∈ col ∧ v ≠ SqlVal.null)) ∧
    ((∀ v ∈ col, v ≠ SqlVal.null → ∃ s, v = SqlVal.textV s) →
      List.Pairwise lexLe (distinct_values col)) := by
  have hmemL : ∀ v, v ∈ List.insertionSort sqlLeProp ((col.filter (· != SqlVal.null)).dedup) ↔
      (v ∈ col ∧ v ≠ SqlVal.null) := by
    intro v
    rw [(List.perm_insertionSort sqlLeProp _).mem_iff, List.mem_dedup, List.mem_filter]
    simp
  refine ⟨?_, ?_, ?_⟩
  · intro s
    constructor
    · intro hs
      rcases List.mem_map.mp hs with ⟨v, hv, rfl⟩
      rcases (hmemL v).mp hv with ⟨hvc, hvn⟩
      exact ⟨v, hvc, hvn, rfl⟩
    · rintro ⟨v, hvc, hvn, rfl⟩
      exact List.mem_map.mpr ⟨v, (hmemL v).mpr ⟨hvc, hvn⟩, rfl⟩
  · refine ⟨List.insertionSort sqlLeProp ((col.filter (· != SqlVal.null)).dedup),
      rfl, ?_, List.sorted_insertionSort sqlLeProp _, ?_⟩
    · exact ((List.perm_insertionSort sqlLeProp _).nodup_iff).mpr (List.nodup_dedup _)
    · intro v hv; exact (hmemL v).mp hv
  · intro htext
    show List.Pairwise lexLe
      ((List.insertionSort sqlLeProp ((col.filter (· != SqlVal.null)).dedup)).map valToText)
    rw [List.pairwise_map]
    refine List.Pairwise.imp_of_mem ?_ (List.sorted_insertionSort sqlLeProp _)
    intro a b ha hb hab
    rcases (hmemL a).mp ha with ⟨hac, han⟩
    rcases (hmemL b).mp hb with ⟨hbc, hbn⟩
    rcases htext a hac han with ⟨x, rfl⟩
    rcases htext b hbc hbn with ⟨y, rfl⟩
    exact hab

/-- Witness for the amended C6 theorem on a concrete all-text column. -/
theorem distinct_values_amended_witness :
    List.Pairwise lexLe
      (distinct_values [SqlVal.textV "b", SqlVal.textV "a", SqlVal.null]) :=
  (distinct_values_amended [SqlVal.textV "b", SqlVal.textV "a", SqlVal.null]).2.2
    (by
      intro v hv hn
      rcases List.mem_cons.mp hv with rfl | hv
      · exact ⟨"b", rfl⟩
      rcases List.mem_cons.mp hv with rfl | hv
      · exact ⟨"a", rfl⟩
      rcases List.mem_cons.mp hv with rfl | hv
      · exact absurd rfl hn
      · cases hv)

/-! ### Claim C5: predefined query catalog -/

/-- Claim C5: for each of the ten fixed report labels the resolved SQL is
`SELECT * FROM <view>` exactly when the label's expected view name is in
the store's view list, and otherwise the label's hard-coded inline
fallback query; the catalog maps all ten labels, in order, for every view
list. -/
theorem predefined_catalog_resolution (views : List String) :
    (predefined views).map Prod.fst =
      ["Successful bookings", "Avg distance by vehicle", "Cancelled by customers",
       "Top 5 customers by rides", "Driver cancels (personal/car)",
       "Min/Max driver rating (Prime Sedan)", "UPI payments",
       "Avg customer rating per vehicle", "Total booking value (successful)",
       "Incomplete rides with reason"] ∧
    lookupSql (predefined views) "Successful bookings" =
      some (if views.contains "successful_bookings"
        then "SELECT * FROM " ++ "successful_bookings"
        else "SELECT * FROM bookings WHERE booking_status = \x27Success\x27") ∧
    lookupSql (predefined views) "Avg distance by vehicle" =
      some (if views.contains "avg_vehicle_types"
        then "SELECT * FROM " ++ "avg_vehicle_types"
        else "SELECT vehicle_type, AVG(ride_distance) AS avg_distance FROM bookings GROUP BY vehicle_type") ∧
    lookupSql (predefined views) "Cancelled by customers" =
      some (if views.contains "count_cancelled_ride_by_customers"
        then "SELECT * FROM " ++ "count_cancelled_ride_by_customers"
        else "SELECT COUNT(*) AS total_cancelled_by_customers FROM bookings WHERE booking_status=\x27Canceled_Rides_by_Customer\x27") ∧
    lookupSql (predefined views) "Top 5 customers by rides" =
      some (if views.contains "Top_5_customers"
        then "SELECT * FROM " ++ "Top_5_customers"
        else "SELECT customer_id, COUNT(booking_id) AS total_rides FROM bookings GROUP BY customer_id ORDER BY total_rides DESC LIMIT 5") ∧
    lookupSql (predefined views) "Driver cancels (personal/car)" =
      some (if views.contains "cancelled_by_drivers"
        then "SELECT * FROM " ++ "cancelled_by_drivers"
        else "SELECT COUNT(*) AS driver_cancel_personal_car FROM bookings WHERE Canceled_Rides_by_Driver=\x27Personal & Car releated issue\x27") ∧
    lookupSql (predefined views) "Min/Max driver rating (Prime Sedan)" =
      some (if views.contains "min_max_driver_ratings"
        then "SELECT * FROM " ++ "min_max_driver_ratings"
        else "SELECT MAX(driver_ratings) AS max_rating, MIN(driver_ratings) AS min_rating FROM bookings WHERE vehicle_type=\x27Prime Sedan\x27") ∧
    lookupSql (predefined views) "UPI payments" =
      some (if views.contains "Pay_UPI"
        then "SELECT * FROM " ++ "Pay_UPI"
        else "SELECT * FROM bookings WHERE payment_method=\x27UPI\x27") ∧
    lookupSql (predefined views) "Avg customer rating per vehicle" =
      some (if views.contains "Avg_Customer_Rating"
        then "SELECT * FROM " ++ "Avg_Customer_Rating"
        else "SELECT vehicle_type, AVG(customer_rating) AS Avg_Cust_Rating FROM bookings GROUP BY vehicle_type") ∧
    lookupSql (predefined views) "Total booking value (successful)" =
      some (if views.contains "Total_values"
        then "SELECT * FROM " ++ "Total_values"
        else "SELECT SUM(booking_value) AS total_success_value FROM bookings WHERE booking_status=\x27Success\x27") ∧
    lookupSql (predefined views) "Incomplete rides with reason" =
      some (if views.contains "incomplete_rides"
        then "SELECT * FROM " ++ "incomplete_rides"
        else "SELECT booking_id, Incomplete_Rides_Reason FROM bookings WHERE Incomplete_Rides=\x27Yes\x27") := by
  refine ⟨rfl, ?_, ?_, ?_, ?_, ?_, ?_, ?_, ?_, ?_, ?_⟩ <;>
    simp [predefined, lookupSql, List.find?]

/-! ### Builder count helpers -/

theorem count_single_ne (c : Prop) [Decidable c] (a t : String) (h : a ≠ t) :
    List.count t (if c then [a] else []) = 0 := by
  split <;> simp [List.count_cons, List.count_nil, h]

theorem count_date_ne (sch : Schema) (sel : Selection) (t : String)
    (h : ("date BETWEEN ? AND ?" : String) ≠ t) :
    List.count t (match sel.dateRange with
      | some dr => if sch.has_date ∧ dr.length = 2 then ["date BETWEEN ? AND ?"] else []
      | none => []) = 0 := by
  cases hdr : sel.dateRange with
  | none => rfl
  | some dr => split <;> (try split) <;> simp [List.count_cons, List.count_nil, h]

theorem count_search_ne (sch : Schema) (sel : Selection) (t : String)
    (h : searchClause sch ≠ t) :
    List.count t (if sel.search ≠ "" ∧ searchSub sch ≠ [] then [searchClause sch] else []) = 0 := by
  split <;> simp [List.count_cons, List.count_nil, h]

theorem count_build_status (sch : Schema) (sel : Selection) :
    List.count "booking_status = ?" (build_where sch sel).1 =
      if sch.has_status ∧ sel.status ≠ "All" then 1 else 0 := by
  rw [build_where_fst]
  simp only [List.count_append]
  rw [count_single_ne (sch.has_vehicle ∧ sel.vehicle ≠ "All") "vehicle_type = ?"
      "booking_status = ?" (by decide),
    count_single_ne (sch.has_payment ∧ sel.payment ≠ "All") "payment_method = ?"
      "booking_status = ?" (by decide),
    count_date_ne sch sel "booking_status = ?" (by decide),
    count_search_ne sch sel "booking_status = ?" (searchClause_ne sch _ (by decide))]
  split <;> simp [List.count_cons, List.count_nil]

theorem count_build_vehicle (sch : Schema) (sel : Selection) :
    List.count "vehicle_type = ?" (build_where sch sel).1 =
      if sch.has_vehicle ∧ sel.vehicle ≠ "All" then 1 else 0 := by
  rw [build_where_fst]
  simp only [List.count_append]
  rw [count_single_ne (sch.has_status ∧ sel.status ≠ "All") "booking_status = ?"
      "vehicle_type = ?" (by decide),
    count_single_ne (sch.has_payment ∧ sel.payment ≠ "All") "payment_method = ?"
      "vehicle_type = ?" (by decide),
    count_date_ne sch sel "vehicle_type = ?" (by decide),
    count_search_ne sch sel "vehicle_type = ?" (searchClause_ne sch _ (by decide))]
  split <;> simp [List.count_cons, List.count_nil]

theorem count_build_payment (sch : Schema) (sel : Selection) :
    List.count "payment_method = ?" (build_where sch sel).1 =
      if sch.has_payment ∧ sel.payment ≠ "All" then 1 else 0 := by
  rw [build_where_fst]
  simp only [List.count_append]
  rw [count_single_ne (sch.has_status ∧ sel.status ≠ "All") "booking_status = ?"
      "payment_method = ?" (by decide),
    count_single_ne (sch.has_vehicle ∧ sel.vehicle ≠ "All") "vehicle_type = ?"
      "payment_method = ?" (by decide),
    count_date_ne sch sel "payment_method = ?" (by decide),
    count_search_ne sch sel "payment_method = ?" (searchClause_ne sch _ (by decide))]
  split <;> simp [List.count_cons, List.count_nil]

theorem count_build_date (sch : Schema) (sel : Selection) :
    List.count "date BETWEEN ? AND ?" (build_where sch sel).1 =
      (match sel.dateRange with
        | some dr => if sch.has_date ∧ dr.length = 2 then 1 else 0
        | none => 0) := by
  rw [build_where_fst]
  simp only [List.count_append]
  rw [count_single_ne (sch.has_status ∧ sel.status ≠ "All") "booking_status = ?"
      "date BETWEEN ? AND ?" (by decide),
    count_single_ne (sch.has_vehicle ∧ sel.vehicle ≠ "All") "vehicle_type = ?"
      "date BETWEEN ? AND ?" (by decide),
    count_single_ne (sch.has_payment ∧ sel.payment ≠ "All") "payment_method = ?"
      "date BETWEEN ? AND ?" (by decide),
    count_search_ne sch sel "date BETWEEN ? AND ?" (searchClause_ne sch _ (by decide))]
  cases hdr : sel.dateRange with
  | none => rfl
  | some dr => split <;> (try split) <;> simp [List.count_cons, List.count_nil]

/-! ### Claim C3: categorical filters -/

/-- Claim C3: a categorical filter left at "All" (or whose column is
absent) contributes no predicate; a concrete choice on a present column
contributes exactly one bound equality predicate on that column; the
statement is `SELECT * FROM <table> ` followed by no WHERE clause when no
predicate exists and otherwise by the predicates joined with AND.
(Determinism is definitional: the builder is a pure function of schema and
selection.) -/
theorem categorical_filter_predicates (sch : Schema) (sel : Selection) (table : String) :
    (List.count "booking_status = ?" (build_where sch sel).1 =
      if sch.has_status ∧ sel.status ≠ "All" then 1 else 0) ∧
    (List.count "vehicle_type = ?" (build_where sch sel).1 =
      if sch.has_vehicle ∧ sel.vehicle ≠ "All" then 1 else 0) ∧
    (List.count "payment_method = ?" (build_where sch sel).1 =
      if sch.has_payment ∧ sel.payment ≠ "All" then 1 else 0) ∧
    (base_sql table (build_where sch sel).1 =
      "SELECT * FROM " ++ table ++ " " ++
        (if (build_where sch sel).1 = [] then ""
         else "WHERE " ++ strJoin " AND " (build_where sch sel).1)) := by
  refine ⟨count_build_status sch sel, count_build_vehicle sch sel,
    count_build_payment sch sel, ?_⟩
  by_cases h : (build_where sch sel).1 = [] <;> simp [base_sql, where_sql, h]

/-! ### Claim C7: the date BETWEEN predicate -/

/-- Claim C7: when the table exposes a date column, the builder emits the
BETWEEN predicate if and only if the widget supplied exactly two
endpoints, in which case it appears exactly once and both endpoints are
bound in order; with fewer than two endpoints no date predicate is
added. -/
theorem date_between_iff (sch : Schema) (sel : Selection) (h : sch.has_date = true) :
    (("date BETWEEN ? AND ?" ∈ (build_where sch sel).1) ↔
      ∃ a b, sel.dateRange = some [a, b]) ∧
    (∀ a b, sel.dateRange = some [a, b] →
      List.count "date BETWEEN ? AND ?" (build_where sch sel).1 = 1) := by
  constructor
  · rw [← List.count_pos_iff, count_build_date]
    cases hdr : sel.dateRange with
    | none => simp
    | some dr =>
      constructor
      · intro hpos
        have h2 : dr.length = 2 := by
          by_cases hd2 : sch.has_date ∧ dr.length = 2
          · exact hd2.2
          · simp [hd2] at hpos
        rcases List.length_eq_two.mp h2 with ⟨a, b, rfl⟩
        exact ⟨a, b, rfl⟩
      · rintro ⟨a, b, hab⟩
        have : dr = [a, b] := by injection hab
        subst this
        simp [h]
  · intro a b hab
    rw [count_build_date, hab]
    simp [h]

/-- Witness for C7 at a concrete schema and two-endpoint range. -/
theorem date_between_iff_witness :
    "date BETWEEN ? AND ?" ∈
      (build_where ⟨true, false, false, false, false, false, false⟩
        ⟨"All", "All", "All", some ["2024-01-01", "2024-12-31"], ""⟩).1 :=
  (date_between_iff ⟨true, false, false, false, false, false, false⟩
    ⟨"All", "All", "All", some ["2024-01-01", "2024-12-31"], ""⟩ rfl).1.mpr
    ⟨"2024-01-01", "2024-12-31", rfl⟩

/-! ### Claim C1: values never reach the statement text -/

theorem dateW_eq_dateActive (sch : Schema) (sel : Selection) :
    (match sel.dateRange with
      | some dr => if sch.has_date ∧ dr.length = 2 then ["date BETWEEN ? AND ?"] else []
      | none => []) =
    (if sch.has_date ∧ dateActive sel = true then ["date BETWEEN ? AND ?"] else []) := by
  cases hdr : sel.dateRange with
  | none => simp [dateActive, hdr]
  | some dr => simp [dateActive, hdr]

/-- Claim C1: the statement text emitted by the builder depends only on the
schema capability flags, the table identifier and which filters are active
(status/vehicle/payment not "All", date range two-endpoint, search
non-empty) — never on the chosen values themselves, which travel only in
the bound parameter list. Two runs agreeing on schema and activity produce
the identical statement. -/
theorem statement_text_independent_of_values (sch : Schema) (table : String)
    (s1 s2 : Selection)
    (hst : (s1.status = "All") ↔ (s2.status = "All"))
    (hv : (s1.vehicle = "All") ↔ (s2.vehicle = "All"))
    (hp : (s1.payment = "All") ↔ (s2.payment = "All"))
    (hd : dateActive s1 = dateActive s2)
    (hse : (s1.search = "") ↔ (s2.search = "")) :
    (build_where sch s1).1 = (build_where sch s2).1 ∧
    base_sql table (build_where sch s1).1 = base_sql table (build_where sch s2).1 := by
  have e1 : (if sch.has_status ∧ s1.status ≠ "All" then ["booking_status = ?"] else []) =
      (if sch.has_status ∧ s2.status ≠ "All" then ["booking_status = ?"] else []) :=
    if_congr (and_congr_right' (not_congr hst)) rfl rfl
  have e2 : (if sch.has_vehicle ∧ s1.vehicle ≠ "All" then ["vehicle_type = ?"] else []) =
      (if sch.has_vehicle ∧ s2.vehicle ≠ "All" then ["vehicle_type = ?"] else []) :=
    if_congr (and_congr_right' (not_congr hv)) rfl rfl
  have e3 : (if sch.has_payment ∧ s1.payment ≠ "All" then ["payment_method = ?"] else []) =
      (if sch.has_payment ∧ s2.payment ≠ "All" then ["payment_method = ?"] else []) :=
    if_congr (and_congr_right' (not_congr hp)) rfl rfl
  have e5 : (if s1.search ≠ "" ∧ searchSub sch ≠ [] then [searchClause sch] else []) =
      (if s2.search ≠ "" ∧ searchSub sch ≠ [] then [searchClause sch] else []) :=
    if_congr (and_congr_left' (not_congr hse)) rfl rfl
  have hw : (build_where sch s1).1 = (build_where sch s2).1 := by
    rw [build_where_fst, build_where_fst, e1, e2, e3, e5,
      dateW_eq_dateActive, dateW_eq_dateActive, hd]
  exact ⟨hw, by rw [hw]⟩

/-- Witness for C1: two runs with different chosen values but the same
activity pattern yield the same statement text. -/
theorem statement_text_independent_of_values_witness :
    base_sql "bookings"
      (build_where ⟨true, true, true, true, true, true, true⟩
        ⟨"Success", "Bike", "All", some ["2024-01-01", "2024-06-30"], "john"⟩).1 =
    base_sql "bookings"
      (build_where ⟨true, true, true, true, true, true, true⟩
        ⟨"Canceled", "Auto", "All", some ["2023-05-05", "2023-06-06"], "JANE"⟩).1 :=
  (statement_text_independent_of_values ⟨true, true, true, true, true, true, true⟩
    "bookings"
    ⟨"Success", "Bike", "All", some ["2024-01-01", "2024-06-30"], "john"⟩
    ⟨"Canceled", "Auto", "All", some ["2023-05-05", "2023-06-06"], "JANE"⟩
    (by decide) (by decide) (by decide) (by decide) (by decide)).2

/-! ### Claim C4: the free-text search disjunction -/

/-- Claim C4: a non-empty search string adds exactly one disjunction
predicate, spanning exactly the present columns among customer id (CAST to
TEXT, raw case-sensitive pattern), pickup location and drop location
(LOWER-cased column, lower-cased pattern), each pattern wrapped in `%`
wildcards; absent columns are skipped, and with none of the three columns
present the builder output is the same as with an empty search (no
predicate added). -/
theorem search_predicate_added (sch : Schema) (sel : Selection) (h : sel.search ≠ "") :
    (searchSub sch = [] →
      build_where sch sel = build_where sch { sel with search := "" }) ∧
    (searchSub sch ≠ [] →
      (build_where sch sel).1 =
        (build_where sch { sel with search := "" }).1 ++ [searchClause sch] ∧
      (build_where sch sel).2 =
        (build_where sch { sel with search := "" }).2 ++ searchParams sch sel.search) ∧
    searchSub sch =
      (if sch.has_cust_id then ["CAST(customer_id AS TEXT) LIKE ?"] else []) ++
      (if sch.has_pickup then ["LOWER(pickup_location) LIKE ?"] else []) ++
      (if sch.has_drop then ["LOWER(drop_location) LIKE ?"] else []) ∧
    searchParams sch sel.search =
      (if sch.has_cust_id then ["%" ++ sel.search ++ "%"] else []) ++
      (if sch.has_pickup then ["%" ++ lowerStr sel.search ++ "%"] else []) ++
      (if sch.has_drop then ["%" ++ lowerStr sel.search ++ "%"] else []) := by
  refine ⟨?_, ?_, rfl, rfl⟩
  · intro hsub
    simp [build_where, hsub]
  · intro hsub
    constructor
    · rw [build_where_fst, build_where_fst]
      simp [h, hsub, List.append_assoc]
    · rw [build_where_snd, build_where_snd]
      simp [h, hsub, List.append_assoc]

/-- Witness for C4: searching "john" against a schema exposing only the
pickup-location column yields exactly the lower-cased pickup predicate. -/
theorem search_predicate_added_witness :
    (build_where ⟨false, false, false, false, false, true, false⟩
        ⟨"All", "All", "All", none, "john"⟩).1 =
      (build_where ⟨false, false, false, false, false, true, false⟩
        ⟨"All", "All", "All", none, ""⟩).1 ++
        [searchClause ⟨false, false, false, false, false, true, false⟩] :=
  ((search_predicate_added ⟨false, false, false, false, false, true, false⟩
    ⟨"All", "All", "All", none, "john"⟩ (by decide)).2.1 (by decide)).1

/-! ### Claim C9: placeholders match parameters -/

theorem countQ_append (a b : String) : countQ (a ++ b) = countQ a + countQ b := by
  simp [countQ, String.data_append, List.count_append]

theorem countQ_strJoin (sep : String) (hsep : countQ sep = 0) (l : List String) :
    countQ (strJoin sep l) = (l.map countQ).sum := by
  induction l with
  | nil => rfl
  | cons s rest ih =>
    cases rest with
    | nil => simp [strJoin]
    | cons t ts =>
      have hu : strJoin sep (s :: t :: ts) = s ++ sep ++ strJoin sep (t :: ts) := rfl
      rw [hu, countQ_append, countQ_append, hsep, ih]
      simp [Nat.add_assoc]

theorem countQ_where_sql (w : List String) :
    countQ (where_sql w) = (w.map countQ).sum := by
  by_cases hw : w = []
  · subst hw; rfl
  · rw [where_sql, if_pos hw, countQ_append, countQ_strJoin " AND " (by decide)]
    have h0 : countQ "WHERE " = 0 := by decide
    omega

theorem countQ_base_sql (table : String) (w : List String)
    (h : countQ table = 0) :
    countQ (base_sql table w) = (w.map countQ).sum := by
  rw [base_sql, countQ_append, countQ_append, countQ_append, h, countQ_where_sql]
  have h1 : countQ "SELECT * FROM " = 0 := by decide
  have h2 : countQ " " = 0 := by decide
  omega

theorem countQ_searchClause (sch : Schema) :
    countQ (searchClause sch) = (searchSub sch).length := by
  cases hc : sch.has_cust_id <;> cases hp : sch.has_pickup <;> cases hd : sch.has_drop <;>
    simp [searchClause, searchSub, strJoin, hc, hp, hd] <;> decide

theorem searchParams_length (sch : Schema) (s : String) :
    (searchParams sch s).length = (searchSub sch).length := by
  cases hc : sch.has_cust_id <;> cases hp : sch.has_pickup <;> cases hd : sch.has_drop <;>
    simp [searchParams, searchSub, hc, hp, hd]

/-- Claim C9: in every statement emitted by the builder (over a table
identifier containing no `?`), the number of `?` placeholders equals the
length of the parameter list, and the parameters are appended in the same
left-to-right order as their predicates: status, vehicle, payment, date
start, date end, then the search patterns in customer-id, pickup, drop
order. -/
theorem placeholder_count_matches_params (sch : Schema) (sel : Selection)
    (table : String) (h : countQ table = 0) :
    countQ (base_sql table (build_where sch sel).1) = (build_where sch sel).2.length ∧
    (build_where sch sel).2 =
      (if sch.has_status ∧ sel.status ≠ "All" then [sel.status] else []) ++
      (if sch.has_vehicle ∧ sel.vehicle ≠ "All" then [sel.vehicle] else []) ++
      (if sch.has_payment ∧ sel.payment ≠ "All" then [sel.payment] else []) ++
      (match sel.dateRange with
        | some dr => if sch.has_date ∧ dr.length = 2 then dr else []
        | none => []) ++
      (if sel.search ≠ "" ∧ searchSub sch ≠ [] then searchParams sch sel.search else []) := by
  refine ⟨?_, build_where_snd sch sel⟩
  rw [countQ_base_sql table _ h, build_where_fst, build_where_snd]
  simp only [List.map_append, List.sum_append, List.length_append]
  have e1 : ((if sch.has_status ∧ sel.status ≠ "All" then ["booking_status = ?"] else []).map
        countQ).sum =
      (if sch.has_status ∧ sel.status ≠ "All" then [sel.status] else []).length := by
    by_cases hc : sch.has_status ∧ sel.status ≠ "All" <;> simp [hc] <;> decide
  have e2 : ((if sch.has_vehicle ∧ sel.vehicle ≠ "All" then ["vehicle_type = ?"] else []).map
        countQ).sum =
      (if sch.has_vehicle ∧ sel.vehicle ≠ "All" then [sel.vehicle] else []).length := by
    by_cases hc : sch.has_vehicle ∧ sel.vehicle ≠ "All" <;> simp [hc] <;> decide
  have e3 : ((if sch.has_payment ∧ sel.payment ≠ "All" then ["payment_method = ?"] else []).map
        countQ).sum =
      (if sch.has_payment ∧ sel.payment ≠ "All" then [sel.payment] else []).length := by
    by_cases hc : sch.has_payment ∧ sel.payment ≠ "All" <;> simp [hc] <;> decide
  have e4 : ((match sel.dateRange with
        | some dr => if sch.has_date ∧ dr.length = 2 then ["date BETWEEN ? AND ?"] else []
        | none => []).map countQ).sum =
      (match sel.dateRange with
        | some dr => if sch.has_date ∧ dr.length = 2 then dr else []
        | none => []).length := by
    cases hdr : sel.dateRange with
    | none => rfl
    | some dr =>
      show (List.map countQ
          (if sch.has_date ∧ dr.length = 2 then ["date BETWEEN ? AND ?"] else [])).sum =
        (if sch.has_date ∧ dr.length = 2 then dr else []).length
      by_cases hc : sch.has_date ∧ dr.length = 2
      · rw [if_pos hc, if_pos hc, hc.2]
        decide
      · simp [hc]
  have e5 : ((if sel.search ≠ "" ∧ searchSub sch ≠ [] then [searchClause sch] else []).map
        countQ).sum =
      (if sel.search ≠ "" ∧ searchSub sch ≠ [] then searchParams sch sel.search else []).length := by
    by_cases hc : sel.search ≠ "" ∧ searchSub sch ≠ []
    · simp [hc, countQ_searchClause, searchParams_length]
    · simp [hc]
  rw [e1, e2, e3, e4, e5]

/-- Witness for C9 at a concrete schema, selection and table. -/
theorem placeholder_count_matches_params_witness :
    countQ (base_sql "bookings"
      (build_where ⟨true, true, true, true, true, true, true⟩
        ⟨"Success", "All", "UPI", some ["2024-01-01", "2024-06-30"], "john"⟩).1) =
    (build_where ⟨true, true, true, true, true, true, true⟩
      ⟨"Success", "All", "UPI", some ["2024-01-01", "2024-06-30"], "john"⟩).2.length :=
  (placeholder_count_matches_params ⟨true, true, true, true, true, true, true⟩
    ⟨"Success", "All", "UPI", some ["2024-01-01", "2024-06-30"], "john"⟩
    "bookings" (by decide)).1

/-! ### Claim C8: CSV round trip -/

theorem parseQuoted_escape (f : List Char) :
    ∀ rest : List Char, rest.head? ≠ some '"' →
      parseQuoted (escapeQuotes f ++ '"' :: rest) = (f, rest) := by
  induction f with
  | nil =>
    intro rest h
    cases rest with
    | nil => rfl
    | cons c2 r2 =>
      have hc2 : c2 ≠ '"' := by simpa using h
      show parseQuoted ('"' :: c2 :: r2) = ([], c2 :: r2)
      rw [parseQuoted]
      simp [hc2]
  | cons a f' ih =>
    intro rest h
    by_cases ha : a = '"'
    · subst ha
      show parseQuoted ('"' :: '"' :: (escapeQuotes f' ++ '"' :: rest)) = ('"' :: f', rest)
      have h1 : parseQuoted ('"' :: '"' :: (escapeQuotes f' ++ '"' :: rest)) =
          ('"' :: (parseQuoted (escapeQuotes f' ++ '"' :: rest)).1,
           (parseQuoted (escapeQuotes f' ++ '"' :: rest)).2) := rfl
      rw [h1, ih rest h]
    · have he : escapeQuotes (a :: f') = a :: escapeQuotes f' := by
        simp [escapeQuotes, ha]
      rw [he]
      show parseQuoted (a :: (escapeQuotes f' ++ '"' :: rest)) = (a :: f', rest)
      rw [parseQuoted.eq_def]
      simp only []
      rw [if_neg ha, ih rest h]

theorem parseUnquoted_clean (f : List Char) :
    ∀ rest : List Char, (∀ c ∈ f, ¬(c = ',' ∨ c = '\n')) → atSep rest →
      parseUnquoted (f ++ rest) = (f, rest) := by
  induction f with
  | nil =>
    intro rest _ hrest
    cases rest with
    | nil => rfl
    | cons c r =>
      have hc : c = ',' ∨ c = '\n' := hrest
      show parseUnquoted (c :: r) = ([], c :: r)
      rw [parseUnquoted]
      simp [hc]
  | cons a f' ih =>
    intro rest hf hrest
    have ha : ¬(a = ',' ∨ a = '\n') := hf a (List.mem_cons_self a f')
    have hf' : ∀ c ∈ f', ¬(c = ',' ∨ c = '\n') :=
      fun c hc => hf c (List.mem_cons_of_mem a hc)
    show parseUnquoted (a :: (f' ++ rest)) = (a :: f', rest)
    rw [parseUnquoted.eq_def]
    simp only []
    rw [if_neg ha, ih rest hf' hrest]

theorem parseField_render (f : List Char) (rest : List Char) (hrest : atSep rest) :
    parseField (renderField f ++ rest) = (f, rest) := by
  have hq : rest.head? ≠ some '"' := by
    cases rest with
    | nil => simp
    | cons c r =>
      have hc : c = ',' ∨ c = '\n' := hrest
      rcases hc with rfl | rfl <;> simp
  by_cases hn : needsQuote f
  · have hr : renderField f ++ rest = '"' :: (escapeQuotes f ++ '"' :: rest) := by
      simp [renderField, hn, List.append_assoc]
    rw [hr]
    show parseQuoted (escapeQuotes f ++ '"' :: rest) = (f, rest)
    exact parseQuoted_escape f rest hq
  · have hclean : ∀ c ∈ f, ¬(c = ',' ∨ c = '\n') := by
      intro c hc hbad
      apply absurd hn
      simp only [needsQuote, List.any_eq_true, not_not]
      exact ⟨c, hc, by rcases hbad with rfl | rfl <;> simp⟩
    have hr : renderField f = f := by simp [renderField, hn]
    rw [hr]
    cases f with
    | nil =>
      cases rest with
      | nil => rfl
      | cons c r =>
        have hc : c = ',' ∨ c = '\n' := hrest
        have hcq : c ≠ '"' := by rcases hc with rfl | rfl <;> simp
        show parseField (c :: r) = ([], c :: r)
        rw [parseField]
        rw [if_neg hcq]
        show parseUnquoted (c :: r) = ([], c :: r)
        rw [parseUnquoted]
        simp [hc]
    | cons a f' =>
      have haq : a ≠ '"' := by
        intro hbad
        apply absurd hn
        simp only [needsQuote, List.any_eq_true, not_not]
        exact ⟨a, List.mem_cons_self a f', by subst hbad; simp⟩
      show parseField (a :: (f' ++ rest)) = (a :: f', rest)
      rw [parseField]
      rw [if_neg haq]
      exact parseUnquoted_clean (a :: f') rest hclean hrest

theorem parseRowF_render (row : List (List Char)) :
    ∀ (fuel : Nat) (rest : List Char), row ≠ [] → row.length ≤ fuel →
      parseRowF fuel (renderRow row ++ '\n' :: rest) = (row, rest) := by
  induction row with
  | nil => intro fuel rest h _; exact absurd rfl h
  | cons f fs ih =>
    intro fuel rest _ hlen
    cases fuel with
    | zero => simp at hlen
    | succ n =>
      cases fs with
      | nil =>
        show parseRowF (n + 1) (renderField f ++ '\n' :: rest) = ([f], rest)
        rw [parseRowF]
        rw [parseField_render f ('\n' :: rest) (Or.inr rfl)]
        simp
      | cons g gs =>
        have hr : renderRow (f :: g :: gs) ++ '\n' :: rest =
            renderField f ++ ',' :: (renderRow (g :: gs) ++ '\n' :: rest) := by
          show (renderField f ++ ',' :: renderRow (g :: gs)) ++ '\n' :: rest = _
          simp [List.append_assoc]
        rw [hr, parseRowF]
        rw [parseField_render f (',' :: (renderRow (g :: gs) ++ '\n' :: rest)) (Or.inl rfl)]
        have hrec : parseRowF n (renderRow (g :: gs) ++ '\n' :: rest) = (g :: gs, rest) :=
          ih n rest (by simp) (by simpa using Nat.lt_succ_iff.mp (by simpa using hlen))
        simp [hrec]

theorem renderRow_length (row : List (List Char)) :
    row.length ≤ (renderRow row).length + 1 := by
  induction row with
  | nil => simp
  | cons f fs ih =>
    cases fs with
    | nil => simp [renderRow]
    | cons g gs =>
      have hr : renderRow (f :: g :: gs) = renderField f ++ ',' :: renderRow (g :: gs) := rfl
      rw [hr]
      simp only [List.length_cons, List.length_append] at ih ⊢
      omega

theorem parseRow_render (row : List (List Char)) (rest : List Char) (h : row ≠ []) :
    parseRow (renderRow row ++ '\n' :: rest) = (row, rest) := by
  apply parseRowF_render row _ rest h
  have h1 := renderRow_length row
  simp only [List.length_append, List.length_cons]
  omega

theorem renderCsv_cons (row : List (List Char)) (t : List (List (List Char))) :
    renderCsv (row :: t) = renderRow row ++ '\n' :: renderCsv t := by
  simp [renderCsv]

theorem parseCsvF_render (t : List (List (List Char))) :
    ∀ fuel : Nat, t.length ≤ fuel → (∀ r ∈ t, r ≠ []) →
      parseCsvF fuel (renderCsv t) = t := by
  induction t with
  | nil =>
    intro fuel _ _
    have hr : renderCsv [] = [] := rfl
    rw [hr]
    cases fuel <;> rfl
  | cons row t' ih =>
    intro fuel hlen hne
    cases fuel with
    | zero => simp at hlen
    | succ n =>
      rw [renderCsv_cons, parseCsvF]
      rw [if_neg (by simp)]
      rw [parseRow_render row (renderCsv t') (hne row (List.mem_cons_self row t'))]
      have hrec : parseCsvF n (renderCsv t') = t' :=
        ih n (by simp only [List.length_cons] at hlen; omega)
          (fun r hr => hne r (List.mem_cons_of_mem row hr))
      simp [hrec]

theorem renderCsv_length (t : List (List (List Char))) :
    t.length ≤ (renderCsv t).length := by
  induction t with
  | nil => simp [renderCsv]
  | cons row t' ih =>
    rw [renderCsv_cons]
    simp only [List.length_cons, List.length_append]
    omega

theorem parseCsv_render (t : List (List (List Char))) (hne : ∀ r ∈ t, r ≠ []) :
    parseCsv (renderCsv t) = t :=
  parseCsvF_render t (renderCsv t).length (renderCsv_length t) hne

/-- Claim C8: serializing a result table (app.py `to_csv_bytes`) emits the
header row first, comma-separated and minimally quoted with no index
column, as the character stream that UTF-8 encoding maps byte-for-byte to
the download payload; re-parsing that CSV text recovers the table exactly,
so in particular the row count and the column names are preserved. -/
theorem csv_round_trip (df : DataFrame) (hcols : df.cols ≠ [])
    (hrows : ∀ r ∈ df.rows, r.length = df.cols.length) :
    parseCsvString (toCsvString df) = df.cols :: df.rows ∧
    (parseCsvString (toCsvString df)).head? = some df.cols ∧
    (parseCsvString (toCsvString df)).length = df.rows.length + 1 ∧
    to_csv_bytes df = (toCsvString df).data := by
  have hne : ∀ r ∈ (df.cols.map String.data) :: df.rows.map (fun r => r.map String.data),
      r ≠ [] := by
    intro r hr
    rcases List.mem_cons.mp hr with rfl | hr
    · simpa using hcols
    · rcases List.mem_map.mp hr with ⟨r0, hr0, rfl⟩
      have hlen0 := hrows r0 hr0
      have hpos : 0 < df.cols.length := List.length_pos.mpr hcols
      cases r0 with
      | nil =>
        simp only [List.length_nil] at hlen0
        omega
      | cons x xs => simp
  have hparse : parseCsv (renderCsv
      ((df.cols.map String.data) :: df.rows.map (fun r => r.map String.data))) =
      (df.cols.map String.data) :: df.rows.map (fun r => r.map String.data) :=
    parseCsv_render _ hne
  have hmk : ∀ l : List String, (l.map String.data).map (fun f => String.mk f) = l := by
    intro l
    rw [List.map_map]
    have hcomp : ((fun f => String.mk f) ∘ String.data) = id := funext fun s => rfl
    rw [hcomp, List.map_id]
  have hmain : parseCsvString (toCsvString df) = df.cols :: df.rows := by
    show (parseCsv (renderCsv
        ((df.cols.map String.data) :: df.rows.map (fun r => r.map String.data)))).map
        (fun r => r.map (fun f => String.mk f)) = df.cols :: df.rows
    rw [hparse]
    simp only [List.map_cons, List.map_map]
    have hcomp : ((fun f => String.mk f) ∘ String.data) = id := funext fun s => rfl
    have hcomp2 : ((fun r : List (List Char) => r.map (fun f => String.mk f)) ∘
        (fun r : List String => r.map String.data)) = id :=
      funext fun r => by simpa using hmk r
    rw [hcomp, hcomp2, List.map_id, List.map_id]
  refine ⟨hmain, ?_, ?_, rfl⟩
  · rw [hmain]; rfl
  · rw [hmain]; simp

/-- Witness for C8 on a concrete table with a comma and a quote in fields. -/
theorem csv_round_trip_witness :
    parseCsvString (toCsvString ⟨["a", "b"], [["1", "x,y"], ["2", "he said \x22hi\x22"]]⟩) =
      ["a", "b"] :: [["1", "x,y"], ["2", "he said \x22hi\x22"]] :=
  (csv_round_trip ⟨["a", "b"], [["1", "x,y"], ["2", "he said \x22hi\x22"]]⟩
    (by decide) (by decide)).1
